import Mathlib

/-!
Shallow embedding of the PyModMon core (pymodmon.py): the register decode /
format pipeline of `Inout.pollTargetData`, the sample buffering discipline of
`pollTargetData` and `Inout.writeLoggerDataFile`, and the timer-driven poll
scheduler of `Inout.runCommunication` / `Inout.stopCommunication`.

Machine words are modelled as natural numbers (`< 2^16` where signedness
matters), decoded values as integers or strings, Python `None` as an explicit
`null` constructor, Python exceptions as `Option.none` results, and the
float divisions of the FIX formats as exact rational divisions.
-/

namespace PyModMon

/-- The element types of `data.moddatatype` (pymodmon.py lines 95-102). -/
inductive ElementType
  | S32
  | U32
  | U64
  | STR32
  | S16
  | U16
deriving DecidableEq, Repr

/-- Register word count per element type, `data.moddatatype`
(pymodmon.py lines 95-102). -/
def moddatatype : ElementType → ℕ
  | .S32 => 2
  | .U32 => 2
  | .U64 => 4
  | .STR32 => 16
  | .S16 => 1
  | .U16 => 1

/-- The data formats of `data.dataformat` (pymodmon.py line 104). -/
inductive FormatKind
  | ENUM
  | UTF8
  | FIX3
  | FIX2
  | FIX1
  | FIX0
  | RAW
deriving DecidableEq, Repr

/-- The value `interpreted` produced by the decode dispatch in
`Inout.pollTargetData` (lines 317-330): an integer for the numeric element
types, a raw string for STR32. -/
inductive DecodedValue
  | int (i : ℤ)
  | str (s : String)
deriving DecidableEq, Repr

/-- The value `displaydata` stored into `data.datavector` (lines 332-347):
Python `None` for the sentinel, a (possibly fractional) number after FIX
scaling, or a string passed through. -/
inductive FormattedValue
  | null
  | num (q : ℚ)
  | str (s : String)
deriving DecidableEq, Repr

/-- `BinaryPayloadDecoder.fromRegisters(registers, endian=Endian.Big)`:
each 16-bit register is packed as two bytes, most significant first
(pymodbus `pack(endian + H, x)`). For a word `w < 2^16` the bytes are
`w / 256` and `w % 256`. -/
def registersToBytes : List ℕ → List ℕ
  | [] => []
  | w :: ws => w / 256 :: w % 256 :: registersToBytes ws

/-- Big-endian composition of a byte sequence into a natural number. -/
def bytesToNatBE (bs : List ℕ) : ℕ :=
  bs.foldl (fun a b => a * 256 + b) 0

/-- Two's-complement reinterpretation of a `bits`-bit unsigned value, as
performed by the signed struct unpack codes used by
`decode_16bit_int` / `decode_32bit_int`. -/
def toSigned (bits : ℕ) (n : ℕ) : ℤ :=
  if n < 2 ^ (bits - 1) then (n : ℤ) else (n : ℤ) - 2 ^ bits

/-- A pymodbus `decode_Nbit_(u)int` call: takes the first `nbytes` bytes of
the payload and unpacks them big-endian; raises `struct.error` (modelled as
`none`) when the payload holds fewer than `nbytes` bytes; surplus payload
bytes are left untouched. -/
def decodeIntBE (nbytes : ℕ) (signed : Bool) (payload : List ℕ) : Option ℤ :=
  if payload.length < nbytes then none
  else
    let n := bytesToNatBE (payload.take nbytes)
    some (if signed then toSigned (8 * nbytes) n else (n : ℤ))

/-- One payload byte as a character of the decoded Python byte string. -/
def byteToChar (b : ℕ) : Char :=
  Char.ofNat b

/-- A pymodbus `decode_string(size)` call: slices the first `size` bytes of
the payload; Python slicing never fails, a short payload just yields a
shorter string. -/
def decodeString (size : ℕ) (payload : List ℕ) : String :=
  String.mk ((payload.take size).map byteToChar)

/-- The decode dispatch of `Inout.pollTargetData` (lines 315-330): build the
big-endian payload from the received registers and decode it according to the
declared element type. `none` models a raised decode exception. -/
def decode (et : ElementType) (words : List ℕ) : Option DecodedValue :=
  let payload := registersToBytes words
  match et with
  | .S32 => (decodeIntBE 4 true payload).map .int
  | .U32 => (decodeIntBE 4 false payload).map .int
  | .U64 => (decodeIntBE 8 false payload).map .int
  | .STR32 => some (.str (decodeString 32 payload))
  | .S16 => (decodeIntBE 2 true payload).map .int
  | .U16 => (decodeIntBE 2 false payload).map .int

/-- `Inout.MIN_SIGNED` (line 118). -/
def MIN_SIGNED : ℤ := -2147483648

/-- `Inout.MAX_UNSIGNED` (line 119). -/
def MAX_UNSIGNED : ℤ := 4294967295

/-- The sentinel test of line 333:
`interpreted == self.MIN_SIGNED or interpreted == self.MAX_UNSIGNED`.
In Python comparing a string with an integer by `==` yields `False`, so a
decoded STR32 string never matches either sentinel. -/
def isNoData (v : DecodedValue) : Bool :=
  match v with
  | .int i => i == MIN_SIGNED || i == MAX_UNSIGNED
  | .str _ => false

/-- Digit character to its numeric value. -/
def digitVal (c : Char) : ℕ :=
  c.toNat - 48

/-- Decimal digit string to a natural number. -/
def digitsToNat (cs : List Char) : ℕ :=
  cs.foldl (fun a c => 10 * a + digitVal c) 0

/-- Models the Python builtin `float()` applied to a string, as invoked by
`float(interpreted)` in lines 338-342 when a FIX format meets an STR32 value:
optional surrounding whitespace, an optional sign, then a decimal literal
with optional fractional part and optional exponent. Returns the exact
rational value of the literal; `none` models the `ValueError` raised on any
other string. (The special literals inf/nan have no rational value and are
not representable here; no register-decoded string takes that form.) -/
def pyFloatOfString (s : String) : Option ℚ :=
  let cs0 := s.toList.dropWhile (fun c => c.isWhitespace)
  let cs1 := (cs0.reverse.dropWhile (fun c => c.isWhitespace)).reverse
  let sign : ℚ × List Char :=
    match cs1 with
    | '+' :: r => (1, r)
    | '-' :: r => (-1, r)
    | r => (1, r)
  let ip := sign.2.takeWhile Char.isDigit
  let rest1 := sign.2.dropWhile Char.isDigit
  let fracSplit : List Char × List Char :=
    match rest1 with
    | '.' :: r => (r.takeWhile Char.isDigit, r.dropWhile Char.isDigit)
    | r => ([], r)
  let fp := fracSplit.1
  if ip.isEmpty && fp.isEmpty then none
  else
    let mant : ℚ := sign.1 * ((digitsToNat (ip ++ fp) : ℚ) / (10 : ℚ) ^ fp.length)
    match fracSplit.2 with
    | [] => some mant
    | e :: r =>
      if e = 'e' ∨ e = 'E' then
        let esign : ℤ × List Char :=
          match r with
          | '+' :: r2 => (1, r2)
          | '-' :: r2 => (-1, r2)
          | r2 => (1, r2)
        let ed := esign.2.takeWhile Char.isDigit
        let r2 := esign.2.dropWhile Char.isDigit
        if ed.isEmpty || !r2.isEmpty then none
        else some (mant * (10 : ℚ) ^ (esign.1 * (digitsToNat ed : ℤ)))
      else none

/-- `float(interpreted) / divisor` of lines 338-342: an integer converts
exactly; a string goes through Python `float()`, which raises (modelled as
`none`) on a non-numeric string. Divisions are modelled exactly over ℚ. -/
def applyFix (v : DecodedValue) (divisor : ℚ) : Option FormattedValue :=
  match v with
  | .int i => some (.num ((i : ℚ) / divisor))
  | .str s => (pyFloatOfString s).map (fun q => .num (q / divisor))

/-- Lines 332-344 of `Inout.pollTargetData`: the sentinel check followed by
the format dispatch producing `displaydata`. Any value equal to a sentinel
becomes `None` before any formatting; otherwise FIX3/FIX2/FIX1 divide by
1000/100/10 and every other format (FIX0, RAW, UTF8, ENUM, or anything
unrecognised) passes the value through unchanged. `none` models a raised
exception (only possible for `float()` on a non-numeric string). -/
def processValue (v : DecodedValue) (f : FormatKind) : Option FormattedValue :=
  if isNoData v then some .null
  else
    match f with
    | .FIX3 => applyFix v 1000
    | .FIX2 => applyFix v 100
    | .FIX1 => applyFix v 10
    | _ =>
      some (match v with
        | .int i => .num (i : ℚ)
        | .str s => .str s)

/-- One row of `data.datasets` (beyond the header row): the address, element
type and format of one register to poll. The description and unit columns
play no role in the core pipeline. -/
structure Dataset where
  address : ℕ
  elementType : ElementType
  format : FormatKind
deriving DecidableEq, Repr

/-- One time-stamped sample: `stampedvector` of lines 354-357. The timestamp
is abstracted to a natural number. -/
structure SampleVector where
  timestamp : ℕ
  values : List FormattedValue
deriving DecidableEq, Repr

/-- The buffering state of the `Data` object: `data.databuffer` (the active
accumulation list), `data.datawritebuffer` (the in-flight write batch), and
`emitted`, the ordered record of batches actually handed to the output sink
by `csv.writer.writerows`. -/
structure BufferState where
  databuffer : List SampleVector
  datawritebuffer : List SampleVector
  emitted : List (List SampleVector)
deriving DecidableEq, Repr

/-- The initial buffer state (`Data.__init__`, lines 110-111). -/
def emptyBuffer : BufferState :=
  ⟨[], [], []⟩

/-- `Inout.writeLoggerDataFile` on the log-file path (lines 223-274), with
the header bookkeeping external. `fileOk = false` models the log file open
failing: the error is reported and the function returns with the buffers
untouched (lines 224-231). With the file accessible, a non-empty
`datawritebuffer` is written and emptied (lines 265-269); otherwise the
`databuffer` is written and emptied (lines 270-274). -/
def writeLoggerDataFile (fileOk : Bool) (s : BufferState) : BufferState :=
  if fileOk = false then s
  else if 0 < s.datawritebuffer.length then
    { s with datawritebuffer := [], emitted := s.emitted ++ [s.datawritebuffer] }
  else
    { s with databuffer := [], emitted := s.emitted ++ [s.databuffer] }

/-- Lines 358-365 of `Inout.pollTargetData`: append the freshly stamped
sample vector to `databuffer`; if the buffer has reached `logmaxbuffer`,
move the whole `databuffer` into `datawritebuffer` (overwriting whatever was
there), empty `databuffer`, and call `writeLoggerDataFile`. -/
def appendAndCheck (logmaxbuffer : ℕ) (fileOk : Bool) (sv : SampleVector)
    (s : BufferState) : BufferState :=
  let db := s.databuffer ++ [sv]
  if logmaxbuffer ≤ db.length then
    writeLoggerDataFile fileOk
      { s with datawritebuffer := db, databuffer := [] }
  else
    { s with databuffer := db }

/-- One iteration of the polling loop (lines 310-347) for one dataset row:
read `moddatatype` registers at the row's address through the transport
(`read address count`; `none` models a read failure raising), decode them,
and apply the sentinel check and format. Any `none` models an exception
propagating out of `pollTargetData`. -/
def pollRow (read : ℕ → ℕ → Option (List ℕ)) (row : Dataset) :
    Option FormattedValue :=
  match read row.address (moddatatype row.elementType) with
  | none => none
  | some regs =>
    match decode row.elementType regs with
    | none => none
    | some v => processValue v row.format

/-- The polling loop over all dataset rows in table order: stops at the
first raised exception (`none`), otherwise collects `data.datavector`. -/
def pollRows (read : ℕ → ℕ → Option (List ℕ)) :
    List Dataset → Option (List FormattedValue)
  | [] => some []
  | row :: rest =>
    match pollRow read row with
    | none => none
    | some fv => (pollRows read rest).map (fun vs => fv :: vs)

/-- `Inout.pollTargetData` (lines 302-365): run the polling loop over the
dataset rows, stamp the collected vector with the current time, append it to
the buffer and flush on threshold. `none` models an exception escaping the
loop: nothing is appended and the buffers are left unchanged. -/
def pollTargetData (read : ℕ → ℕ → Option (List ℕ)) (ts : ℕ)
    (logmaxbuffer : ℕ) (fileOk : Bool) (datasets : List Dataset)
    (s : BufferState) : Option BufferState :=
  match pollRows read datasets with
  | none => none
  | some values => some (appendAndCheck logmaxbuffer fileOk ⟨ts, values⟩ s)

/-- The scheduler state: the buffers plus whether a next-tick timer
(`self.commtimer`) is currently scheduled. -/
structure SchedState where
  buf : BufferState
  timerActive : Bool
deriving DecidableEq, Repr

/-- `Inout.runCommunication` (lines 278-292): one poll pass, then start the
timer for the next tick. If the poll raises, the statements after it never
run: the timer is not started and polling dies. -/
def runCommunication (read : ℕ → ℕ → Option (List ℕ)) (ts : ℕ)
    (logmaxbuffer : ℕ) (fileOk : Bool) (datasets : List Dataset)
    (s : SchedState) : SchedState :=
  match pollTargetData read ts logmaxbuffer fileOk datasets s.buf with
  | none => { s with timerActive := false }
  | some b => { buf := b, timerActive := true }

/-- `Inout.stopCommunication` (lines 294-298): cancel the pending next-tick
timer and flush the data buffer via `writeLoggerDataFile`. -/
def stopCommunication (fileOk : Bool) (s : SchedState) : SchedState :=
  { buf := writeLoggerDataFile fileOk s.buf, timerActive := false }

/-- One scheduler step of the timer: a tick fires (invoking
`runCommunication`) only when the timer is scheduled; `none` means no
pending tick fires. -/
def tickStep (read : ℕ → ℕ → Option (List ℕ)) (ts : ℕ) (logmaxbuffer : ℕ)
    (fileOk : Bool) (datasets : List Dataset) (s : SchedState) :
    Option SchedState :=
  if s.timerActive then
    some (runCommunication read ts logmaxbuffer fileOk datasets s)
  else none

/-- The command-line single-shot path (lines 940-947): one
`runCommunication` invocation followed immediately by `stopCommunication`. -/
def singleShot (read : ℕ → ℕ → Option (List ℕ)) (ts : ℕ) (logmaxbuffer : ℕ)
    (fileOk : Bool) (datasets : List Dataset) (s : SchedState) : SchedState :=
  stopCommunication fileOk (runCommunication read ts logmaxbuffer fileOk datasets s)

/-! Concrete instances used by counterexamples and witnesses. -/

/-- Three one-word descriptors; the second will suffer a read failure. -/
def rows3 : List Dataset :=
  [⟨10, .U16, .RAW⟩, ⟨20, .U16, .RAW⟩, ⟨30, .U16, .RAW⟩]

/-- A transport that fails (the read raises) at address 20 and returns the
single register word 5 everywhere else. -/
def read3 (a : ℕ) (_c : ℕ) : Option (List ℕ) :=
  if a = 20 then none else some [5]

/-- A single-descriptor table as built by the single-address command line
mode. -/
def rows1 : List Dataset := [⟨30775, .S32, .FIX0⟩]

/-- A transport returning the two register words [0, 7] for every read. -/
def readOk (_a _c : ℕ) : Option (List ℕ) := some [0, 7]

/-- A sample vector with timestamp 0. -/
def svA : SampleVector := ⟨0, []⟩

/-- A sample vector with timestamp 1. -/
def svB : SampleVector := ⟨1, []⟩

/-- A scheduler state with two buffered samples and a scheduled timer. -/
def demoStopSched : SchedState :=
  ⟨⟨[svA, svB], [], []⟩, true⟩

/-- The 16 register words of an STR32 read whose payload spells "AB"
followed by 30 null bytes. -/
def words10 : List ℕ := 0x4142 :: List.replicate 15 0

/-- The decoded Python byte string for `words10`. -/
def s10 : String := String.mk ('A' :: 'B' :: List.replicate 30 (Char.ofNat 0))

/-! Helper lemmas. -/

/-- Each register contributes exactly two payload bytes. -/
lemma registersToBytes_length (ws : List ℕ) :
    (registersToBytes ws).length = 2 * ws.length := by
  induction ws with
  | nil => rfl
  | cons w rest ih =>
    simp [registersToBytes, ih]
    omega

/-- An integer decode succeeds exactly when the payload holds at least the
requested number of bytes. -/
lemma decodeIntBE_isSome (nbytes : ℕ) (signed : Bool) (payload : List ℕ) :
    (decodeIntBE nbytes signed payload).isSome = true ↔ nbytes ≤ payload.length := by
  unfold decodeIntBE
  by_cases h : payload.length < nbytes
  · simp only [if_pos h, Option.isSome_none]
    constructor
    · intro hc; exact absurd hc (by simp)
    · intro hc; omega
  · simp only [if_neg h, Option.isSome_some]
    constructor
    · intro _; omega
    · intro _; trivial

/-- If any row of the table raises during its poll iteration, the whole loop
raises. -/
lemma pollRows_eq_none_of_pollRow_none (read : ℕ → ℕ → Option (List ℕ))
    (rows : List Dataset) (h : ∃ row ∈ rows, pollRow read row = none) :
    pollRows read rows = none := by
  induction rows with
  | nil => simp at h
  | cons row rest ih =>
    rcases h with ⟨r, hr, hnone⟩
    rcases List.mem_cons.mp hr with h1 | h1
    · subst h1
      simp [pollRows, hnone]
    · unfold pollRows
      cases hpr : pollRow read row with
      | none => rfl
      | some fv => rw [ih ⟨r, h1, hnone⟩]; rfl

/-- A successful append-and-flush-check step conserves the samples: the
batches emitted so far plus the active list gain exactly the appended
sample, and no write batch stays in flight. -/
lemma appendAndCheck_true_spec (T : ℕ) (sv : SampleVector) (s : BufferState)
    (h : s.datawritebuffer = []) :
    ((appendAndCheck T true sv s).emitted.flatten
        ++ (appendAndCheck T true sv s).databuffer
      = s.emitted.flatten ++ s.databuffer ++ [sv])
    ∧ (appendAndCheck T true sv s).datawritebuffer = [] := by
  by_cases hT : T ≤ s.databuffer.length + 1
  · simp [appendAndCheck, writeLoggerDataFile, hT]
  · simp [appendAndCheck, hT, h]

/-- Two's-complement 16-bit values lie in [-32768, 32767]. -/
lemma toSigned16_bounds (w : ℕ) (hw : w < 65536) :
    -32768 ≤ toSigned 16 w ∧ toSigned 16 w ≤ 65535 := by
  have h15 : (2 : ℕ) ^ (16 - 1) = 32768 := by norm_num
  have h16 : (2 : ℤ) ^ 16 = 65536 := by norm_num
  unfold toSigned
  rw [h15, h16]
  split <;> omega

/-- Decoding S16 from a non-empty word list yields the two's-complement
value of the first word. -/
lemma decode_S16_cons (w : ℕ) (rest : List ℕ) :
    decode .S16 (w :: rest) = some (.int (toSigned 16 w)) := by
  have h2 : ¬ ((registersToBytes (w :: rest)).length < 2) := by
    simp [registersToBytes]
  have hb : bytesToNatBE ((registersToBytes (w :: rest)).take 2) = w := by
    simp [registersToBytes, bytesToNatBE]
    omega
  simp [decode, decodeIntBE, h2, hb]

/-- Decoding U16 from a non-empty word list yields the first word. -/
lemma decode_U16_cons (w : ℕ) (rest : List ℕ) :
    decode .U16 (w :: rest) = some (.int w) := by
  have h2 : ¬ ((registersToBytes (w :: rest)).length < 2) := by
    simp [registersToBytes]
  have hb : bytesToNatBE ((registersToBytes (w :: rest)).take 2) = w := by
    simp [registersToBytes, bytesToNatBE]
    omega
  simp [decode, decodeIntBE, h2, hb]

/-! Claim theorems. -/

/-- C1: any decoded integer equal to -2147483648 or 4294967295 is tagged
"no data" regardless of the element type that produced it, and the
sentinel-then-format step yields null for every format kind; in particular
decoding [0x8000, 0x0000] as S32 yields -2147483648, tagged "no data", and
formatting it under FIX2 yields null. -/
theorem c1_sentinel_maps_to_null :
    (∀ i : ℤ, (i = MIN_SIGNED ∨ i = MAX_UNSIGNED) →
      isNoData (.int i) = true
      ∧ ∀ f : FormatKind, processValue (.int i) f = some .null)
    ∧ decode .S32 [0x8000, 0x0000] = some (.int (-2147483648))
    ∧ isNoData (.int (-2147483648)) = true
    ∧ processValue (.int (-2147483648)) .FIX2 = some .null := by
  refine ⟨?_, by decide, by decide, by decide⟩
  intro i hi
  have hnd : isNoData (.int i) = true := by
    rcases hi with h | h <;> simp [isNoData, h]
  exact ⟨hnd, fun f => by simp [processValue, hnd]⟩

/-- C1 witness: the theorem applied at the concrete sentinel 4294967295. -/
theorem c1_sentinel_maps_to_null_witness :
    isNoData (.int 4294967295) = true
    ∧ ∀ f : FormatKind, processValue (.int 4294967295) f = some .null :=
  c1_sentinel_maps_to_null.1 4294967295 (Or.inr rfl)

/-- C2: for any sequence of appended sample vectors, each append followed by
the threshold flush check (with successful writes), the emitted batches
concatenated with the remaining active buffer are exactly the appended
samples in order — so their total count is the number of appends, no sample
is lost, and none is duplicated — and no write batch remains in flight. -/
theorem c2_buffer_conservation (svs : List SampleVector) (T : ℕ) :
    ((svs.foldl (fun s sv => appendAndCheck T true sv s) emptyBuffer).emitted.flatten
        ++ (svs.foldl (fun s sv => appendAndCheck T true sv s) emptyBuffer).databuffer
      = svs)
    ∧ (((svs.foldl (fun s sv => appendAndCheck T true sv s) emptyBuffer).emitted.map
          List.length).sum
        + (svs.foldl (fun s sv => appendAndCheck T true sv s) emptyBuffer).databuffer.length
      = svs.length)
    ∧ (svs.foldl (fun s sv => appendAndCheck T true sv s) emptyBuffer).datawritebuffer
      = [] := by
  have main : ∀ (l : List SampleVector) (s : BufferState), s.datawritebuffer = [] →
      ((l.foldl (fun s sv => appendAndCheck T true sv s) s).emitted.flatten
          ++ (l.foldl (fun s sv => appendAndCheck T true sv s) s).databuffer
        = s.emitted.flatten ++ s.databuffer ++ l)
      ∧ (l.foldl (fun s sv => appendAndCheck T true sv s) s).datawritebuffer = [] := by
    intro l
    induction l with
    | nil =>
      intro s hs
      simpa using hs
    | cons sv rest ih =>
      intro s hs
      have h1 := appendAndCheck_true_spec T sv s hs
      have h2 := ih (appendAndCheck T true sv s) h1.2
      refine ⟨?_, by rw [List.foldl_cons]; exact h2.2⟩
      rw [List.foldl_cons, h2.1, h1.1]
      simp
  have hm := main svs emptyBuffer rfl
  have hflat : (svs.foldl (fun s sv => appendAndCheck T true sv s) emptyBuffer).emitted.flatten
      ++ (svs.foldl (fun s sv => appendAndCheck T true sv s) emptyBuffer).databuffer
      = svs := by
    simpa [emptyBuffer] using hm.1
  refine ⟨hflat, ?_, hm.2⟩
  have := congrArg List.length hflat
  simpa [List.length_flatten] using this

/-- C3 counterexample: with three descriptors whose middle read fails, the
poll loop raises instead of recording a null and continuing — no length-3
sample vector is produced and nothing is appended to the buffer. -/
theorem c3_counterexample :
    pollRows read3 rows3 = none
    ∧ pollTargetData read3 0 50 true rows3 emptyBuffer = none := by
  constructor <;> rfl

/-- C3 (amended): a transport read failure for any descriptor makes the
whole poll cycle abort: the exception propagates to the caller, no value is
recorded for any descriptor, no sample vector is appended, and the
remaining descriptors are not processed. -/
theorem c3_read_failure_aborts_cycle (read : ℕ → ℕ → Option (List ℕ))
    (rows : List Dataset) (ts T : ℕ) (fileOk : Bool) (s : BufferState)
    (h : ∃ row ∈ rows, read row.address (moddatatype row.elementType) = none) :
    pollTargetData read ts T fileOk rows s = none := by
  have hrows : pollRows read rows = none := by
    apply pollRows_eq_none_of_pollRow_none
    rcases h with ⟨row, hmem, hread⟩
    exact ⟨row, hmem, by simp [pollRow, hread]⟩
  simp [pollTargetData, hrows]

/-- C3 witness: the amended theorem applied to the concrete failing
transport. -/
theorem c3_read_failure_aborts_cycle_witness :
    pollTargetData read3 1 50 true rows3 emptyBuffer = none :=
  c3_read_failure_aborts_cycle read3 rows3 1 50 true emptyBuffer
    ⟨⟨20, .U16, .RAW⟩, by decide, rfl⟩

/-- C4 counterexample: decoding three words as S32 (mandated word count 2)
succeeds — using only the leading two words — so decode does not fail on
every length mismatch. -/
theorem c4_counterexample :
    decode .S32 [0, 0, 1] = some (.int 0)
    ∧ ([0, 0, 1] : List ℕ).length ≠ moddatatype .S32 := by
  constructor <;> decide

/-- C4 (amended): for the integer element types, decode succeeds exactly
when the word count is at least the mandated count (surplus words are
ignored); STR32 decode never fails (a short block just yields a shorter
string). When decode does fail for some descriptor (a too-short block), the
exception aborts the whole poll cycle: the descriptor value is not recorded
as "no data", and the remaining descriptors are not processed. -/
theorem c4_decode_length_characterisation (et : ElementType) (ws : List ℕ) :
    (et ≠ .STR32 → ((decode et ws).isSome = true ↔ moddatatype et ≤ ws.length))
    ∧ (et = .STR32 → (decode et ws).isSome = true)
    ∧ (∀ (read : ℕ → ℕ → Option (List ℕ)) (rows : List Dataset) (ts T : ℕ)
        (fileOk : Bool) (s : BufferState) (row : Dataset) (regs : List ℕ),
        row ∈ rows →
        read row.address (moddatatype row.elementType) = some regs →
        decode row.elementType regs = none →
        pollTargetData read ts T fileOk rows s = none) := by
  refine ⟨?_, ?_, ?_⟩
  · intro hne
    have hlen := registersToBytes_length ws
    have hmap : ∀ o : Option ℤ,
        ((o.map DecodedValue.int).isSome = true) ↔ (o.isSome = true) := by
      intro o; cases o <;> simp
    cases et with
    | STR32 => exact absurd rfl hne
    | S32 =>
      rw [show decode .S32 ws
            = (decodeIntBE 4 true (registersToBytes ws)).map DecodedValue.int from rfl,
        hmap, decodeIntBE_isSome, hlen]
      show 4 ≤ 2 * ws.length ↔ 2 ≤ ws.length
      omega
    | U32 =>
      rw [show decode .U32 ws
            = (decodeIntBE 4 false (registersToBytes ws)).map DecodedValue.int from rfl,
        hmap, decodeIntBE_isSome, hlen]
      show 4 ≤ 2 * ws.length ↔ 2 ≤ ws.length
      omega
    | U64 =>
      rw [show decode .U64 ws
            = (decodeIntBE 8 false (registersToBytes ws)).map DecodedValue.int from rfl,
        hmap, decodeIntBE_isSome, hlen]
      show 8 ≤ 2 * ws.length ↔ 4 ≤ ws.length
      omega
    | S16 =>
      rw [show decode .S16 ws
            = (decodeIntBE 2 true (registersToBytes ws)).map DecodedValue.int from rfl,
        hmap, decodeIntBE_isSome, hlen]
      show 2 ≤ 2 * ws.length ↔ 1 ≤ ws.length
      omega
    | U16 =>
      rw [show decode .U16 ws
            = (decodeIntBE 2 false (registersToBytes ws)).map DecodedValue.int from rfl,
        hmap, decodeIntBE_isSome, hlen]
      show 2 ≤ 2 * ws.length ↔ 1 ≤ ws.length
      omega
  · intro het
    subst het
    rfl
  · intro read rows ts T fileOk s row regs hmem hread hdec
    have hrows : pollRows read rows = none :=
      pollRows_eq_none_of_pollRow_none read rows
        ⟨row, hmem, by simp [pollRow, hread, hdec]⟩
    simp [pollTargetData, hrows]

/-- C4 witness: the amended characterisation applied at U32 with a
matching-length block. -/
theorem c4_decode_length_characterisation_witness :
    (decode .U32 [1, 2]).isSome = true :=
  ((c4_decode_length_characterisation .U32 [1, 2]).1 (by decide)).mpr (by decide)

/-- C5: a decoded integer not tagged "no data" is divided by 1000/100/10
under FIX3/FIX2/FIX1 and passed through unchanged under FIX0, RAW, UTF8 and
ENUM; in particular decoding [0x0000, 0x0001] as U32 yields 1, which FIX2
formats to 0.01. -/
theorem c5_fix_scaling :
    (∀ i : ℤ, isNoData (.int i) = false →
      processValue (.int i) .FIX3 = some (.num ((i : ℚ) / 1000))
      ∧ processValue (.int i) .FIX2 = some (.num ((i : ℚ) / 100))
      ∧ processValue (.int i) .FIX1 = some (.num ((i : ℚ) / 10))
      ∧ processValue (.int i) .FIX0 = some (.num ((i : ℚ)))
      ∧ processValue (.int i) .RAW = some (.num ((i : ℚ)))
      ∧ processValue (.int i) .UTF8 = some (.num ((i : ℚ)))
      ∧ processValue (.int i) .ENUM = some (.num ((i : ℚ))))
    ∧ decode .U32 [0x0000, 0x0001] = some (.int 1)
    ∧ processValue (.int 1) .FIX2 = some (.num (0.01 : ℚ)) := by
  refine ⟨?_, by decide, ?_⟩
  · intro i h
    exact ⟨by simp [processValue, applyFix, h], by simp [processValue, applyFix, h],
      by simp [processValue, applyFix, h], by simp [processValue, h],
      by simp [processValue, h], by simp [processValue, h], by simp [processValue, h]⟩
  · norm_num [processValue, applyFix, isNoData, MIN_SIGNED, MAX_UNSIGNED]

/-- C5 witness: the scaling law applied at the non-sentinel value 2 under
FIX2. -/
theorem c5_fix_scaling_witness :
    processValue (.int 2) .FIX2 = some (.num (((2 : ℤ) : ℚ) / 100)) :=
  (c5_fix_scaling.1 2 (by decide)).2.1

/-- C6: when no failed write batch is pending and the sink is accessible,
issuing stop cancels the pending next-tick timer (no tick can fire on the
stopped state) and flushes the whole active buffer to the sink regardless of
the flush threshold, leaving the active buffer empty. -/
theorem c6_stop_cancels_and_flushes (read : ℕ → ℕ → Option (List ℕ))
    (ts T : ℕ) (rows : List Dataset) (s : SchedState)
    (h : s.buf.datawritebuffer = []) :
    (stopCommunication true s).timerActive = false
    ∧ tickStep read ts T true rows (stopCommunication true s) = none
    ∧ (stopCommunication true s).buf.databuffer = []
    ∧ (stopCommunication true s).buf.emitted
        = s.buf.emitted ++ [s.buf.databuffer] := by
  refine ⟨rfl, by simp [tickStep, stopCommunication], ?_, ?_⟩
  · simp [stopCommunication, writeLoggerDataFile, h]
  · simp [stopCommunication, writeLoggerDataFile, h]

/-- C6 witness: stop applied to a running scheduler holding two buffered
samples below any threshold. -/
theorem c6_stop_cancels_and_flushes_witness :
    (stopCommunication true demoStopSched).timerActive = false
    ∧ tickStep readOk 2 50 true rows1 (stopCommunication true demoStopSched) = none
    ∧ (stopCommunication true demoStopSched).buf.databuffer = []
    ∧ (stopCommunication true demoStopSched).buf.emitted
        = demoStopSched.buf.emitted ++ [demoStopSched.buf.databuffer] :=
  c6_stop_cancels_and_flushes readOk 2 50 rows1 demoStopSched rfl

/-- C7 counterexample: in the single-shot command line path the one
`runCommunication` invocation does schedule a next tick — the timer is
started — before `stopCommunication` cancels it, contradicting "without
scheduling a next tick". -/
theorem c7_counterexample :
    (runCommunication readOk 0 50 true rows1 ⟨emptyBuffer, false⟩).timerActive
      = true := by
  rfl

/-- C7 (amended): single-shot mode executes exactly one poll tick whose
sample lands in the buffer, schedules a next tick, and immediately cancels
it via stop — so no tick can fire on the final state — and the stop flush is
unconditional: below the threshold (for example 50) it still emits exactly
one batch holding the single sample. -/
theorem c7_single_shot_schedules_then_cancels (read : ℕ → ℕ → Option (List ℕ))
    (rows : List Dataset) (T : ℕ) (vs : List FormattedValue)
    (hpoll : pollRows read rows = some vs) (hT : 2 ≤ T) :
    (runCommunication read 0 T true rows ⟨emptyBuffer, false⟩).timerActive = true
    ∧ (singleShot read 0 T true rows ⟨emptyBuffer, false⟩).timerActive = false
    ∧ (∀ (read2 : ℕ → ℕ → Option (List ℕ)) (ts2 T2 : ℕ) (fOk2 : Bool)
        (rows2 : List Dataset),
        tickStep read2 ts2 T2 fOk2 rows2
          (singleShot read 0 T true rows ⟨emptyBuffer, false⟩) = none)
    ∧ (singleShot read 0 T true rows ⟨emptyBuffer, false⟩).buf.emitted
        = [[⟨0, vs⟩]]
    ∧ (singleShot read 0 T true rows ⟨emptyBuffer, false⟩).buf.databuffer = []
    ∧ (singleShot read 0 T true rows ⟨emptyBuffer, false⟩).buf.datawritebuffer
        = [] := by
  have hnT : ¬ (T ≤ 0 + 1) := by omega
  have hpt : pollTargetData read 0 T true rows emptyBuffer
      = some ⟨[⟨0, vs⟩], [], []⟩ := by
    simp [pollTargetData, hpoll, appendAndCheck, emptyBuffer, hnT]
  have hrun : runCommunication read 0 T true rows ⟨emptyBuffer, false⟩
      = ⟨⟨[⟨0, vs⟩], [], []⟩, true⟩ := by
    simp [runCommunication, hpt]
  have hstop : singleShot read 0 T true rows ⟨emptyBuffer, false⟩
      = ⟨⟨[], [], [[⟨0, vs⟩]]⟩, false⟩ := by
    simp [singleShot, hrun, stopCommunication, writeLoggerDataFile]
  refine ⟨by rw [hrun], by rw [hstop], ?_, by rw [hstop], by rw [hstop],
    by rw [hstop]⟩
  intro read2 ts2 T2 fOk2 rows2
  rw [hstop]
  rfl

/-- C7 witness: the amended single-shot behaviour at threshold 50 with a
transport delivering the S32 value 7. -/
theorem c7_single_shot_schedules_then_cancels_witness :
    (singleShot readOk 0 50 true rows1 ⟨emptyBuffer, false⟩).buf.emitted
      = [[⟨0, [FormattedValue.num ((7 : ℤ) : ℚ)]⟩]] :=
  (c7_single_shot_schedules_then_cancels readOk rows1 50
      [FormattedValue.num ((7 : ℤ) : ℚ)] rfl (by norm_num)).2.2.2.1

/-- C8 counterexample: with threshold 1, a flush whose write fails retains
the batch [svA] in the write buffer, but the next threshold flush overwrites
the write buffer with the new batch: svA ends up in no emitted batch and in
no buffer — it is discarded, not written at the next flush attempt. -/
theorem c8_counterexample :
    appendAndCheck 1 false svA emptyBuffer
      = ⟨[], [svA], []⟩
    ∧ appendAndCheck 1 true svB (appendAndCheck 1 false svA emptyBuffer)
      = ⟨[], [], [[svB]]⟩
    ∧ svA ∉ (appendAndCheck 1 true svB
        (appendAndCheck 1 false svA emptyBuffer)).emitted.flatten := by
  refine ⟨by decide, by decide, by decide⟩

/-- C8 (amended): when the sink fails during a flush the batch is retained
unchanged in the write buffer, and it is written at the next flush only if
that flush reaches it before another threshold swap: a direct
`writeLoggerDataFile` call with the sink accessible emits exactly the
retained batch (a later threshold swap instead overwrites it, as the
counterexample shows). -/
theorem c8_write_failure_retention (s : BufferState)
    (h : s.datawritebuffer ≠ []) :
    writeLoggerDataFile false s = s
    ∧ (writeLoggerDataFile true s).emitted = s.emitted ++ [s.datawritebuffer]
    ∧ (writeLoggerDataFile true s).datawritebuffer = [] := by
  have hl : 0 < s.datawritebuffer.length := List.length_pos.mpr h
  exact ⟨rfl, by simp [writeLoggerDataFile, hl], by simp [writeLoggerDataFile, hl]⟩

/-- C8 witness: retention and next direct write for the one-sample batch. -/
theorem c8_write_failure_retention_witness :
    writeLoggerDataFile false ⟨[], [svA], []⟩ = ⟨[], [svA], []⟩
    ∧ (writeLoggerDataFile true (⟨[], [svA], []⟩ : BufferState)).emitted
        = ([] : List (List SampleVector)) ++ [[svA]]
    ∧ (writeLoggerDataFile true (⟨[], [svA], []⟩ : BufferState)).datawritebuffer
        = [] :=
  c8_write_failure_retention ⟨[], [svA], []⟩ (by decide)

/-- C9: a successfully decoded S16 or U16 value lies in [-32768, 65535], is
never tagged "no data" (neither sentinel is reachable), and every format
kind maps it to a numeric — hence non-null — formatted value. -/
theorem c9_16bit_never_sentinel (ws : List ℕ) (i : ℤ)
    (hws : ∀ w ∈ ws, w < 65536)
    (h : decode .S16 ws = some (.int i) ∨ decode .U16 ws = some (.int i)) :
    (-32768 ≤ i ∧ i ≤ 65535)
    ∧ isNoData (.int i) = false
    ∧ (∀ f : FormatKind, ∃ q : ℚ, processValue (.int i) f = some (.num q)) := by
  have hrange : -32768 ≤ i ∧ i ≤ 65535 := by
    cases ws with
    | nil =>
      rcases h with h | h <;>
        simp [decode, registersToBytes, decodeIntBE] at h
    | cons w rest =>
      have hw : w < 65536 := hws w (List.mem_cons_self w rest)
      rcases h with h | h
      · rw [decode_S16_cons] at h
        simp only [Option.some.injEq, DecodedValue.int.injEq] at h
        subst h
        exact toSigned16_bounds w hw
      · rw [decode_U16_cons] at h
        simp only [Option.some.injEq, DecodedValue.int.injEq] at h
        subst h
        constructor <;> omega
  have hnd : isNoData (.int i) = false := by
    simp only [isNoData, MIN_SIGNED, MAX_UNSIGNED, Bool.or_eq_false_iff,
      beq_eq_false_iff_ne, ne_eq]
    constructor <;> omega
  refine ⟨hrange, hnd, ?_⟩
  intro f
  cases f with
  | FIX3 => exact ⟨(i : ℚ) / 1000, by simp [processValue, applyFix, hnd]⟩
  | FIX2 => exact ⟨(i : ℚ) / 100, by simp [processValue, applyFix, hnd]⟩
  | FIX1 => exact ⟨(i : ℚ) / 10, by simp [processValue, applyFix, hnd]⟩
  | FIX0 => exact ⟨(i : ℚ), by simp [processValue, hnd]⟩
  | RAW => exact ⟨(i : ℚ), by simp [processValue, hnd]⟩
  | UTF8 => exact ⟨(i : ℚ), by simp [processValue, hnd]⟩
  | ENUM => exact ⟨(i : ℚ), by simp [processValue, hnd]⟩

/-- C9 witness: the U16 word 0x1234 decodes to 4660, not tagged "no data". -/
theorem c9_16bit_never_sentinel_witness :
    isNoData (.int 4660) = false :=
  (c9_16bit_never_sentinel [0x1234] 4660 (by decide) (Or.inr (by decide))).2.1

/-- C10 counterexample: the STR32 value "AB" (with null padding) decoded
from registers does not pass through a FIX format unchanged: the format step
applies float() to the string, which raises (modelled as none), so no value
at all is produced for the descriptor. -/
theorem c10_counterexample :
    decode .STR32 words10 = some (.str s10)
    ∧ processValue (.str s10) .FIX2 = none := by
  constructor <;> decide

/-- C10 (amended): an STR32 decode always succeeds with a string, the string
never matches either integer sentinel — so it is never tagged "no data" —
and under the non-FIX formats (RAW, UTF8, ENUM, FIX0) it passes through to
the sample vector unchanged; under FIX1/FIX2/FIX3 the code instead attempts
float() on the string, which raises for non-numeric strings. -/
theorem c10_str32_no_sentinel (ws : List ℕ) :
    ∃ s : String,
      decode .STR32 ws = some (.str s)
      ∧ isNoData (.str s) = false
      ∧ processValue (.str s) .RAW = some (.str s)
      ∧ processValue (.str s) .UTF8 = some (.str s)
      ∧ processValue (.str s) .ENUM = some (.str s)
      ∧ processValue (.str s) .FIX0 = some (.str s) :=
  ⟨decodeString 32 (registersToBytes ws), rfl, rfl, rfl, rfl, rfl, rfl⟩

end PyModMon
